import Mathlib

/-!
# Verification of the nardocs documentation-discovery engine

Shallow embedding of `src/discovery/package-scanner.ts` (the `PackageScanner`
class) and `src/discovery/docs-crawler.ts` (the `DocsCrawler` class).

Network effects (registry fetch, HEAD probes, homepage analysis, page fetch,
sitemap fetch) and the WHATWG `URL` library are abstracted as oracle
parameters; everything else is translated directly from the source.
-/

namespace Nardocs

/-! ## String helpers (JS string-primitive semantics over `List Char`) -/

/-- Substring containment, `s.includes(sub)` in JS terms: `chContainsSub sub l`
is true when `sub` occurs contiguously inside `l`. -/
def chContainsSub (sub : List Char) : List Char → Bool
  | [] => List.isPrefixOf sub []
  | l@(_ :: t) => List.isPrefixOf sub l || chContainsSub sub t

/-- JS `s.includes(sub)` on strings. -/
def strContainsSub (s sub : String) : Bool := chContainsSub sub.data s.data

/-- JS `s.startsWith(p)` on strings. -/
def strStarts (s p : String) : Bool := List.isPrefixOf p.data s.data

/-- JS `s.endsWith(p)` on strings. -/
def strEnds (s p : String) : Bool := List.isSuffixOf p.data s.data

/-- JS `s.toLowerCase()` (ASCII, which is exact for the URL/name inputs involved). -/
def strLower (s : String) : String := ⟨s.data.map Char.toLower⟩

/-- Drop a leading occurrence of `p` (the effect of `s.replace(/^p/, '')`). -/
def stripLeading (s p : String) : String :=
  if strStarts s p then ⟨s.data.drop p.data.length⟩ else s

/-- Drop a trailing occurrence of `p` (the effect of `s.replace(/p$/, '')`). -/
def stripTrailing (s p : String) : String :=
  if strEnds s p then ⟨s.data.take (s.data.length - p.data.length)⟩ else s

/-- Replace a leading occurrence of `p` by `r` (anchored `s.replace(/^p/, r)`). -/
def replaceLeading (s p r : String) : String :=
  if strStarts s p then r ++ ⟨s.data.drop p.data.length⟩ else s

/-- Remove the first occurrence of character `c`: `s.replace('c', '')`. -/
def chRemoveFirst (c : Char) : List Char → List Char
  | [] => []
  | x :: t => if x == c then t else x :: chRemoveFirst c t

/-- Replace the first occurrence of `c` by `r`: `s.replace('c', 'r')`. -/
def chReplaceFirst (c r : Char) : List Char → List Char
  | [] => []
  | x :: t => if x == c then r :: t else x :: chReplaceFirst c r t

/-- Replace every occurrence of `c` by `r`: `s.replace(/c/g, 'r')`. -/
def chReplaceAll (c r : Char) (l : List Char) : List Char :=
  l.map (fun x => if x == c then r else x)

def strRemoveFirst (s : String) (c : Char) : String := ⟨chRemoveFirst c s.data⟩
def strReplaceFirst (s : String) (c r : Char) : String := ⟨chReplaceFirst c r s.data⟩
def strReplaceAll (s : String) (c r : Char) : String := ⟨chReplaceAll c r s.data⟩

/-- JS whitespace as relevant to `String.prototype.trim` on ASCII input. -/
def isJsSpace (c : Char) : Bool :=
  c == ' ' || c == '\t' || c == '\n' || c == '\r' || c == '\x0b' || c == '\x0c'

/-- JS `s.trim()`. -/
def jsTrim (s : String) : String :=
  ⟨((s.data.dropWhile isJsSpace).reverse.dropWhile isJsSpace).reverse⟩

/-- Split on a single-character separator, JS `s.split('c')` semantics
(the result is never empty: `"".split('/') == [""]`). -/
def chSplitOn (sep : Char) : List Char → List String
  | [] => [""]
  | x :: t =>
    if x == sep then "" :: chSplitOn sep t
    else
      match chSplitOn sep t with
      | [] => [⟨[x]⟩]
      | s :: rest => (⟨x :: s.data⟩ : String) :: rest

def strSplitOn (s : String) (sep : Char) : List String := chSplitOn sep s.data

/-- Characters before the first occurrence of `c` (JS `s.split(c)[0]`). -/
def takeBeforeChar (s : String) (c : Char) : String := ⟨s.data.takeWhile (· != c)⟩

/-- JS word character `\w = [A-Za-z0-9_]`. -/
def isWordChar (c : Char) : Bool := c.isAlphanum || c == '_'

/-- JS `s.replace(/\b\w/g, c => c.toUpperCase())`: upper-case every word
character that follows a word boundary.  The boolean tracks whether the
previous character was a word character. -/
def capWordsAux : Bool → List Char → List Char
  | _, [] => []
  | prevWord, c :: rest =>
    (if isWordChar c && !prevWord then c.toUpper else c) :: capWordsAux (isWordChar c) rest

def capitalizeWords (s : String) : String := ⟨capWordsAux false s.data⟩

/-- JS truthiness of a nullable string: `null`/`undefined` and `""` are falsy. -/
def optTruthy : Option String → Bool
  | none => false
  | some s => !(s == "")

/-! ## Data model (`package-scanner.ts`) -/

/-- Confidence tier attached to a discovered documentation URL. -/
inductive Confidence where
  | high
  | medium
  | low
deriving DecidableEq, Repr

/-- The `repository` field of npm metadata: either a plain string or an
object `{ type?, url? }`. -/
inductive Repository where
  | str (url : String)
  | obj (rtype : Option String) (url : Option String)
deriving DecidableEq, Repr

/-- Record `NpmPackageMetadata` as produced by `getPackageMetadata` (the `bugs`
field is never read by discovery and is omitted). -/
structure NpmPackageMetadata where
  name : String
  version : String
  description : Option String := none
  homepage : Option String := none
  repository : Option Repository := none
  keywords : Option (List String) := none
deriving DecidableEq, Repr

/-- Record `DiscoveredPackage`, the discovery engine's output record. -/
structure DiscoveredPackage where
  name : String
  version : String
  description : Option String := none
  docsUrl : Option String := none
  githubUrl : Option String := none
  npmUrl : String
  confidence : Confidence
  keywords : Option (List String) := none
deriving DecidableEq, Repr

/-! ## Known documentation overrides (`KNOWN_DOCS_OVERRIDES`) -/

/-- The curated override table, transcribed from the source. -/
def KNOWN_DOCS_OVERRIDES : List (String × String) := [
  ("lodash", "https://lodash.com/docs"),
  ("axios", "https://axios-http.com/docs/intro"),
  ("moment", "https://momentjs.com/docs/"),
  ("dayjs", "https://day.js.org/docs/en/installation/installation"),
  ("date-fns", "https://date-fns.org/docs/Getting-Started"),
  ("zod", "https://zod.dev"),
  ("yup", "https://github.com/jquense/yup#readme"),
  ("joi", "https://joi.dev/api/"),
  ("express", "https://expressjs.com/en/api.html"),
  ("fastify", "https://fastify.dev/docs/latest/"),
  ("koa", "https://koajs.com/"),
  ("hono", "https://hono.dev/docs/"),
  ("elysia", "https://elysiajs.com/introduction.html"),
  ("trpc", "https://trpc.io/docs"),
  ("@trpc/server", "https://trpc.io/docs"),
  ("@trpc/client", "https://trpc.io/docs"),
  ("graphql", "https://graphql.org/learn/"),
  ("apollo-server", "https://www.apollographql.com/docs/apollo-server/"),
  ("@apollo/client", "https://www.apollographql.com/docs/react/"),
  ("urql", "https://commerce.nearform.com/open-source/urql/docs/"),
  ("swr", "https://swr.vercel.app/docs/getting-started"),
  ("@tanstack/react-query", "https://tanstack.com/query/latest/docs/react/overview"),
  ("@tanstack/vue-query", "https://tanstack.com/query/latest/docs/vue/overview"),
  ("zustand", "https://docs.pmnd.rs/zustand/getting-started/introduction"),
  ("jotai", "https://jotai.org/docs/introduction"),
  ("recoil", "https://recoiljs.org/docs/introduction/getting-started"),
  ("mobx", "https://mobx.js.org/README.html"),
  ("redux", "https://redux.js.org/introduction/getting-started"),
  ("@reduxjs/toolkit", "https://redux-toolkit.js.org/introduction/getting-started"),
  ("immer", "https://immerjs.github.io/immer/"),
  ("ramda", "https://ramdajs.com/docs/"),
  ("rxjs", "https://rxjs.dev/guide/overview"),
  ("three", "https://threejs.org/docs/"),
  ("d3", "https://d3js.org/getting-started"),
  ("chart.js", "https://www.chartjs.org/docs/latest/"),
  ("echarts", "https://echarts.apache.org/en/option.html"),
  ("framer-motion", "https://www.framer.com/motion/"),
  ("react-spring", "https://www.react-spring.dev/docs/getting-started"),
  ("gsap", "https://gsap.com/docs/v3/"),
  ("anime", "https://animejs.com/documentation/"),
  ("socket.io", "https://socket.io/docs/v4/"),
  ("socket.io-client", "https://socket.io/docs/v4/client-api/"),
  ("ws", "https://github.com/websockets/ws#readme"),
  ("mongoose", "https://mongoosejs.com/docs/guide.html"),
  ("sequelize", "https://sequelize.org/docs/v6/"),
  ("typeorm", "https://typeorm.io/"),
  ("knex", "https://knexjs.org/guide/"),
  ("drizzle-orm", "https://orm.drizzle.team/docs/overview"),
  ("kysely", "https://kysely.dev/docs/intro"),
  ("@supabase/supabase-js", "https://supabase.com/docs/reference/javascript/introduction"),
  ("firebase", "https://firebase.google.com/docs"),
  ("aws-sdk", "https://docs.aws.amazon.com/AWSJavaScriptSDK/v3/latest/"),
  ("@aws-sdk/client-s3", "https://docs.aws.amazon.com/AWSJavaScriptSDK/v3/latest/"),
  ("stripe", "https://stripe.com/docs/api"),
  ("next-auth", "https://next-auth.js.org/getting-started/introduction"),
  ("passport", "https://www.passportjs.org/docs/"),
  ("jsonwebtoken", "https://github.com/auth0/node-jsonwebtoken#readme"),
  ("bcrypt", "https://github.com/kelektiv/node.bcrypt.js#readme"),
  ("helmet", "https://helmetjs.github.io/"),
  ("cors", "https://github.com/expressjs/cors#readme"),
  ("dotenv", "https://github.com/motdotla/dotenv#readme"),
  ("winston", "https://github.com/winstonjs/winston#readme"),
  ("pino", "https://getpino.io/#/"),
  ("jest", "https://jestjs.io/docs/getting-started"),
  ("vitest", "https://vitest.dev/guide/"),
  ("mocha", "https://mochajs.org/"),
  ("cypress", "https://docs.cypress.io/guides/overview/why-cypress"),
  ("playwright", "https://playwright.dev/docs/intro"),
  ("puppeteer", "https://pptr.dev/"),
  ("cheerio", "https://cheerio.js.org/docs/intro"),
  ("sharp", "https://sharp.pixelplumbing.com/"),
  ("jimp", "https://jimp-dev.github.io/jimp/"),
  ("node-fetch", "https://github.com/node-fetch/node-fetch#readme"),
  ("got", "https://github.com/sindresorhus/got#readme"),
  ("ky", "https://github.com/sindresorhus/ky#readme"),
  ("form-data", "https://github.com/form-data/form-data#readme"),
  ("multer", "https://github.com/expressjs/multer#readme"),
  ("formidable", "https://github.com/node-formidable/formidable#readme"),
  ("uuid", "https://github.com/uuidjs/uuid#readme"),
  ("nanoid", "https://github.com/ai/nanoid#readme"),
  ("slugify", "https://github.com/simov/slugify#readme"),
  ("marked", "https://marked.js.org/"),
  ("markdown-it", "https://markdown-it.github.io/"),
  ("highlight", "https://highlightjs.org/"),
  ("prismjs", "https://prismjs.com/"),
  ("handlebars", "https://handlebarsjs.com/guide/"),
  ("ejs", "https://ejs.co/"),
  ("pug", "https://pugjs.org/api/getting-started.html"),
  ("sass", "https://sass-lang.com/documentation/"),
  ("less", "https://lesscss.org/"),
  ("postcss", "https://postcss.org/docs/"),
  ("autoprefixer", "https://github.com/postcss/autoprefixer#readme"),
  ("tailwindcss", "https://tailwindcss.com/docs"),
  ("styled-components", "https://styled-components.com/docs"),
  ("emotion", "https://emotion.sh/docs/introduction"),
  ("@emotion/react", "https://emotion.sh/docs/introduction"),
  ("class-variance-authority", "https://cva.style/docs"),
  ("clsx", "https://github.com/lukeed/clsx#readme"),
  ("tailwind-merge", "https://github.com/dcastil/tailwind-merge#readme"),
  ("@vueuse/core", "https://vueuse.org"),
  ("@vueuse/components", "https://vueuse.org/guide/components.html"),
  ("@vueuse/router", "https://vueuse.org/router/README.html"),
  ("@vueuse/integrations", "https://vueuse.org/integrations/README.html"),
  ("@vueuse/head", "https://github.com/vueuse/head#readme"),
  ("@vueuse/motion", "https://motion.vueuse.org/"),
  ("@nuxtjs/color-mode", "https://color-mode.nuxtjs.org/"),
  ("@nuxtjs/device", "https://github.com/nuxt-modules/device#readme"),
  ("@nuxtjs/google-fonts", "https://google-fonts.nuxtjs.org/"),
  ("@nuxtjs/i18n", "https://i18n.nuxtjs.org/"),
  ("@nuxtjs/tailwindcss", "https://tailwindcss.nuxtjs.org/"),
  ("@nuxtjs/supabase", "https://supabase.nuxtjs.org/"),
  ("@pinia/nuxt", "https://pinia.vuejs.org/ssr/nuxt.html"),
  ("@vite-pwa/nuxt", "https://vite-pwa-org.netlify.app/frameworks/nuxt.html"),
  ("vue-router", "https://router.vuejs.org/"),
  ("pinia", "https://pinia.vuejs.org/"),
  ("vuex", "https://vuex.vuejs.org/"),
  ("vue-i18n", "https://vue-i18n.intlify.dev/"),
  ("@intlify/vue-i18n", "https://vue-i18n.intlify.dev/"),
  ("@testing-library/vue", "https://testing-library.com/docs/vue-testing-library/intro/"),
  ("@testing-library/react", "https://testing-library.com/docs/react-testing-library/intro/"),
  ("@testing-library/user-event", "https://testing-library.com/docs/user-event/intro"),
  ("@vue/test-utils", "https://test-utils.vuejs.org/"),
  ("react-router-dom", "https://reactrouter.com/en/main"),
  ("react-hook-form", "https://react-hook-form.com/get-started"),
  ("formik", "https://formik.org/docs/overview"),
  ("@headlessui/vue", "https://headlessui.com/v1/vue"),
  ("@headlessui/react", "https://headlessui.com/v1/react"),
  ("radix-vue", "https://www.radix-vue.com/"),
  ("@radix-ui/react-accordion", "https://www.radix-ui.com/primitives/docs/components/accordion"),
  ("shadcn-vue", "https://www.shadcn-vue.com/"),
  ("vue-motion", "https://motion.vueuse.org/"),
  ("vee-validate", "https://vee-validate.logaretm.com/v4/"),
  ("luxon", "https://moment.github.io/luxon/"),
  ("lodash-es", "https://lodash.com/docs"),
  ("ts-pattern", "https://github.com/gvergnaud/ts-pattern#readme"),
  ("type-fest", "https://github.com/sindresorhus/type-fest#readme"),
  ("ofetch", "https://github.com/unjs/ofetch#readme")]

/-- Lookup `KNOWN_DOCS_OVERRIDES[packageName]`: associative lookup by exact name. -/
def knownOverrideFor (packageName : String) : Option String :=
  (KNOWN_DOCS_OVERRIDES.find? (fun p => p.1 == packageName)).map (·.2)

/-- The npm registry package page, `https://www.npmjs.com/package/${name}`. -/
def npmUrlOf (packageName : String) : String :=
  "https://www.npmjs.com/package/" ++ packageName

/-! ## GitHub URL extraction (`PackageScanner.extractGitHubUrl`) -/

/-- The clean-up chain applied to a repository URL string. -/
def cleanRepositoryUrl (url : String) : String :=
  let u1 := stripLeading url "git+"
  let u2 := stripTrailing u1 ".git"
  let u3 := replaceLeading u2 "git://" "https://"
  let u4 := replaceLeading u3 "ssh://git@github.com" "https://github.com"
  replaceLeading u4 "git@github.com:" "https://github.com/"

/-- Function `extractGitHubUrl`: canonicalize the repository field and keep it only if
it mentions the GitHub host. -/
def extractGitHubUrl : Option Repository → Option String
  | none => none
  | some (.str url) =>
    let u := cleanRepositoryUrl url
    if strContainsSub u "github.com" then some u else none
  | some (.obj _ urlField) =>
    match urlField with
    | some url =>
      if url == "" then none
      else
        let u := cleanRepositoryUrl url
        if strContainsSub u "github.com" then some u else none
    | none => none

/-! ## URL pattern templates (`DOCS_URL_PATTERNS`) -/

namespace DOCS_URL_PATTERNS

def readthedocs (pkg : String) : String := "https://" ++ pkg ++ ".readthedocs.io"

def gitbook (pkg : String) : String := "https://" ++ pkg ++ ".gitbook.io"

/-- Template `githubPages(pkg, repo)`: take the last two `/`-separated segments of the
repo URL as org and name.  When the split has fewer than two parts, the JS
negative index reads `undefined`, which interpolates as the string
"undefined". -/
def githubPages (_pkg repo : String) : String :=
  let parts := strSplitOn repo '/'
  let org := if parts.length ≥ 2 then (parts.getD (parts.length - 2) "") else "undefined"
  let name := parts.getD (parts.length - 1) ""
  "https://" ++ org ++ ".github.io/" ++ name

def docsSubdomain (domain : String) : String := "https://docs." ++ domain

def docPath (url : String) : String := url ++ "/docs"

def documentationPath (url : String) : String := url ++ "/documentation"

def guidePath (url : String) : String := url ++ "/guide"

end DOCS_URL_PATTERNS

/-! ## Organization-specific documentation patterns
(`PackageScanner.tryOrganizationDocs`) -/

/-- Scope extraction, `packageName.match(/^@([^/]+)\/)/`: the name must start
with `@`, have a non-empty scope free of `/`, then a `/`; returns the scope
and the remainder after `@org/`. -/
def scopeOf (packageName : String) : Option (String × String) :=
  match packageName.data with
  | '@' :: rest =>
    let org := rest.takeWhile (· != '/')
    if org.isEmpty then none
    else
      match rest.drop org.length with
      | '/' :: pkg => some (⟨org⟩, ⟨pkg⟩)
      | _ => none
  | _ => none

/-- Special-case doc paths for Vercel packages. -/
def vercelSpecialCases : List (String × String) :=
  [("og", "og-image-generation"), ("analytics", "analytics"),
   ("edge", "functions/edge-functions"), ("edge-config", "storage/edge-config")]

/-- The `orgPatterns` table: candidate URL lists per known organization. -/
def orgPatternUrls (org pkg : String) : Option (List String) :=
  if org == "vercel" then
    let special := (vercelSpecialCases.find? (fun p => p.1 == pkg)).map (·.2)
    let docPath := if optTruthy special then special.getD "" else pkg
    some ["https://vercel.com/docs/" ++ docPath,
          "https://vercel.com/docs/functions/" ++ docPath,
          "https://vercel.com/docs/" ++ pkg]
  else if org == "aws" then
    some ["https://docs.aws.amazon.com/AWSJavaScriptSDK/v3/latest/client/" ++ pkg ++ "/",
          "https://docs.aws.amazon.com/sdk-for-javascript/v3/developer-guide/" ++ pkg ++ ".html"]
  else if org == "azure" then
    some ["https://docs.microsoft.com/en-us/javascript/api/" ++ pkg ++ "/",
          "https://learn.microsoft.com/en-us/javascript/api/" ++ pkg ++ "/"]
  else if org == "google" then
    some ["https://cloud.google.com/nodejs/docs/reference/" ++ pkg ++ "/latest",
          "https://googleapis.dev/nodejs/" ++ pkg ++ "/latest/"]
  else if org == "cloudflare" then
    some ["https://developers.cloudflare.com/" ++ pkg ++ "/",
          "https://developers.cloudflare.com/workers/" ++ pkg ++ "/"]
  else none

/-- Function `tryOrganizationDocs`: for scoped names with a known organization, probe
the candidate URLs in order and accept the first that exists, at confidence
`high`.  `urlExists` abstracts the HEAD request. -/
def tryOrganizationDocs (urlExists : String → Bool) (packageName : String) :
    Option (String × Confidence) :=
  match scopeOf packageName with
  | none => none
  | some (org, pkg) =>
    match orgPatternUrls org pkg with
    | none => none
    | some urls => (urls.find? urlExists).map (fun u => (u, .high))

/-! ## Generic documentation patterns (`PackageScanner.tryCommonDocPatterns`) -/

/-- JS `hostname.replace(/^www\./, '')`. -/
def stripWww (host : String) : String := stripLeading host "www."

/-- JS `homepage.replace(/\/$/, '')`. -/
def stripTrailingSlash (url : String) : String := stripTrailing url "/"

/-- The sanitized package name for ReadTheDocs:
`packageName.replace('@', '').replace('/', '-')` (first occurrences). -/
def rtdCleanName (packageName : String) : String :=
  strReplaceFirst (strRemoveFirst packageName '@') '/' '-'

/-- The ordered `urlsToTry` list built by `tryCommonDocPatterns`.
`parseHost` abstracts `new URL(homepage).hostname` (`none` when the
constructor throws, in which case all homepage-derived candidates are
skipped). -/
def tryCommonDocPatternsCandidates (parseHost : String → Option String)
    (packageName : String) (homepage : Option String) (githubUrl : Option String) :
    List (String × Confidence) :=
  let fromHomepage :=
    match homepage with
    | some hp =>
      if hp == "" then []
      else
        match parseHost hp with
        | some host =>
          let domain := stripWww host
          [(DOCS_URL_PATTERNS.docsSubdomain domain, Confidence.high),
           (DOCS_URL_PATTERNS.docPath (stripTrailingSlash hp), Confidence.high),
           (DOCS_URL_PATTERNS.documentationPath (stripTrailingSlash hp), Confidence.medium),
           (DOCS_URL_PATTERNS.guidePath (stripTrailingSlash hp), Confidence.medium)]
        | none => []
    | none => []
  let fromGithub :=
    match githubUrl with
    | some gh =>
      if gh == "" then []
      else [(DOCS_URL_PATTERNS.githubPages packageName gh, Confidence.medium)]
    | none => []
  fromHomepage ++ fromGithub ++
    [(DOCS_URL_PATTERNS.readthedocs (rtdCleanName packageName), Confidence.medium)]

/-- The probing loop: the first candidate whose URL exists wins. -/
def firstExisting (urlExists : String → Bool) :
    List (String × Confidence) → Option (String × Confidence)
  | [] => none
  | c :: rest => if urlExists c.1 then some c else firstExisting urlExists rest

/-- Function `tryCommonDocPatterns`: build the candidate list, probe in order. -/
def tryCommonDocPatterns (urlExists : String → Bool) (parseHost : String → Option String)
    (packageName : String) (homepage : Option String) (githubUrl : Option String) :
    Option (String × Confidence) :=
  firstExisting urlExists
    (tryCommonDocPatternsCandidates parseHost packageName homepage githubUrl)

/-! ## Network oracle for discovery

The scanner's network interactions are pure-ified as an oracle record:
`urlExists` models the HEAD probes (`response.ok`; errors and timeouts are
`false`), `parseHost` models `new URL(s).hostname` (`none` when the
constructor throws), and `analyzeHomepage` models the result of
`analyzeHomepageForDocs` (`none` when the fetch/scan finds nothing). -/
structure NetOracle where
  urlExists : String → Bool
  parseHost : String → Option String
  analyzeHomepage : String → Option String

/-! ## The homepage-acceptance predicates (Priority 1 of `discoverPackage`) -/

/-- Is the (lowercased) homepage a disqualified repository link?  GitHub
repo links are disqualified unless the address is GitHub Pages
(`*.github.io`); GitLab and npm links are always disqualified. -/
def isRepositoryLinkHomepage (hp : String) : Bool :=
  let homepage := strLower hp
  let isGitHubPages := strContainsSub homepage ".github.io"
  (strContainsSub homepage "github.com" && !isGitHubPages) ||
    strContainsSub homepage "gitlab.com" ||
    strContainsSub homepage "npmjs.com"

/-- Does the (lowercased) homepage carry a documentation-indicative
substring, an indicative TLD pattern, or a GitHub Pages host? -/
def hasDocKeywordsHomepage (hp : String) : Bool :=
  let homepage := strLower hp
  let isGitHubPages := strContainsSub homepage ".github.io"
  strContainsSub homepage "docs" ||
    strContainsSub homepage "documentation" ||
    strContainsSub homepage "guide" ||
    strContainsSub homepage ".dev" ||
    strContainsSub homepage ".io" ||
    isGitHubPages

/-! ## The URL-determination cascade of `discoverPackage`

The six priority blocks each mutate only `result.docsUrl` and
`result.confidence`, so they are modelled as transformers of a `UrlState`
pair.  Every block runs only while `docsUrl` is still unset (Priority 1 has
no explicit guard in the source because the override case returns early
before it; the guard is vacuously true there). -/

/-- The `(docsUrl, confidence)` slice of the result record. -/
structure UrlState where
  docsUrl : Option String
  confidence : Confidence
deriving DecidableEq, Repr

/-- Priority 1: accept the metadata homepage unless it is a repository link. -/
def homepageTier (md : NpmPackageMetadata) (s : UrlState) : UrlState :=
  if optTruthy s.docsUrl then s
  else
    match md.homepage with
    | some hp =>
      if hp == "" then s
      else if isRepositoryLinkHomepage hp then s
      else ⟨some hp, if hasDocKeywordsHomepage hp then .high else .medium⟩
    | none => s

/-- Priority 2: organization-specific patterns, scoped packages only. -/
def orgTier (net : NetOracle) (packageName : String) (s : UrlState) : UrlState :=
  if !optTruthy s.docsUrl && strStarts packageName "@" then
    match tryOrganizationDocs net.urlExists packageName with
    | some (u, c) => ⟨some u, c⟩
    | none => s
  else s

/-- Priority 3: generic documentation URL patterns. -/
def commonTier (net : NetOracle) (packageName : String) (md : NpmPackageMetadata)
    (githubUrl : Option String) (s : UrlState) : UrlState :=
  if !optTruthy s.docsUrl then
    match tryCommonDocPatterns net.urlExists net.parseHost packageName md.homepage githubUrl with
    | some (u, c) => ⟨some u, c⟩
    | none => s
  else s

/-- Priority 4: analyze the homepage content for documentation links (the
repository-link filter here has no GitHub Pages exception). -/
def analyzeTier (net : NetOracle) (md : NpmPackageMetadata) (s : UrlState) : UrlState :=
  if !optTruthy s.docsUrl && optTruthy md.homepage then
    let hp := md.homepage.getD ""
    let homepage := strLower hp
    let isRepositoryLink :=
      strContainsSub homepage "github.com" ||
        strContainsSub homepage "gitlab.com" ||
        strContainsSub homepage "npmjs.com"
    if !isRepositoryLink then
      match net.analyzeHomepage hp with
      | some docUrl => if docUrl == "" then s else ⟨some docUrl, .high⟩
      | none => s
    else s
  else s

/-- Priority 5: fall back to the GitHub repository URL. -/
def githubTier (githubUrl : Option String) (s : UrlState) : UrlState :=
  if !optTruthy s.docsUrl && optTruthy githubUrl then ⟨githubUrl, .medium⟩ else s

/-- Priority 6: the npm package page as last resort. -/
def npmTier (packageName : String) (s : UrlState) : UrlState :=
  if !optTruthy s.docsUrl then ⟨some (npmUrlOf packageName), .low⟩ else s

/-- The cascade, in source order, for one pass over a package with metadata. -/
def urlTiers (net : NetOracle) (packageName : String) (md : NpmPackageMetadata) :
    List (UrlState → UrlState) :=
  [homepageTier md,
   orgTier net packageName,
   commonTier net packageName md (extractGitHubUrl md.repository),
   analyzeTier net md,
   githubTier (extractGitHubUrl md.repository),
   npmTier packageName]

/-- Run a list of tiers left to right. -/
def runTiers (tiers : List (UrlState → UrlState)) (s : UrlState) : UrlState :=
  tiers.foldl (fun s t => t s) s

/-! ## `discoverPackage` -/

/-- Function `PackageScanner.discoverPackage`, with the registry fetch supplied as the
`metadata` argument (`none` models a failed `getPackageMetadata`) and the
remaining network effects supplied by `net`.  The per-instance cache is
omitted: it only memoizes this function's result per name. -/
def discoverPackage (net : NetOracle) (packageName : String)
    (metadata : Option NpmPackageMetadata) : DiscoveredPackage :=
  let result0 : DiscoveredPackage :=
    { name := packageName, version := "unknown", docsUrl := none, githubUrl := none,
      npmUrl := npmUrlOf packageName, confidence := .low }
  -- Check for known overrides first
  let result1 :=
    if optTruthy (knownOverrideFor packageName) then
      { result0 with docsUrl := knownOverrideFor packageName, confidence := .high }
    else result0
  match metadata with
  | none => result1
  | some md =>
    let r :=
      { result1 with
        version := md.version, description := md.description,
        keywords := md.keywords, githubUrl := extractGitHubUrl md.repository }
    -- Known override: keep it but with the other fields populated
    if optTruthy r.docsUrl then r
    else
      let s0 : UrlState := ⟨r.docsUrl, r.confidence⟩
      let s1 := homepageTier md s0
      let s2 := orgTier net packageName s1
      let s3 := commonTier net packageName md r.githubUrl s2
      let s4 := analyzeTier net md s3
      let s5 := githubTier r.githubUrl s4
      let s6 := npmTier packageName s5
      { r with docsUrl := s6.docsUrl, confidence := s6.confidence }

/-! ## Data model (`docs-crawler.ts`) -/

/-- A navigable documentation section. -/
structure DocSection where
  title : String
  path : String
  url : String
deriving DecidableEq, Repr

/-- The crawler's result record. -/
structure CrawlResult where
  baseUrl : String
  isValidDocs : Bool
  title : Option String := none
  sections : List DocSection
  sitemapFound : Bool
  navigationFound : Bool
deriving DecidableEq, Repr

/-- An anchor inside a matched navigation element: its `href` attribute and
its visible text (`$(el).text()`, untrimmed). -/
structure NavLink where
  href : String
  text : String
deriving DecidableEq, Repr

/-- The fetched, cheerio-loaded page, abstracted to the queries the crawler
performs on it.  `navQuery sel` is the `a[href]` anchors of
`$(sel).first()`, or `none` when the selector matches no element. -/
structure Page where
  titleText : String
  h1Text : String
  navQuery : String → Option (List NavLink)
  hasCodeBlocks : Bool
  hasNavContainer : Bool
  headingTexts : List String

/-- Network and URL-library oracle for the crawler.  `fetchPage` is `none`
on a network error, timeout, or non-2xx status; `sitemapFetch` returns the
`url loc` texts of a sitemap, or `none` when its fetch fails or is non-2xx;
`pathnameOf` and `originOf` model the WHATWG `URL` accessors on well-formed
absolute URLs; `resolveHref` models `new URL(path, baseUrl).href`; `headOk`
models the HEAD probes of `probeCommonPaths`. -/
structure CrawlNet where
  fetchPage : String → Option Page
  sitemapFetch : String → Option (List String)
  pathnameOf : String → String
  originOf : String → String
  resolveHref : String → String → String
  headOk : String → Bool

/-- List `NAV_SELECTORS`: the prioritized sidebar/nav selector list. -/
def NAV_SELECTORS : List String :=
  [".sidebar nav",
   ".sidebar-nav",
   ".docs-sidebar",
   ".documentation-sidebar",
   "[class*=\"sidebar\"] nav",
   "[class*=\"sidebar\"] ul",
   "aside nav",
   "aside ul",
   ".docs-nav",
   ".doc-nav",
   ".toc",
   ".table-of-contents",
   "[class*=\"toc\"]",
   ".VPSidebar",
   ".sidebar-links",
   ".menu-list",
   "[class*=\"DocsSidebar\"]",
   ".nextra-sidebar",
   ".gitbook-root nav"]

/-- Predicate `DOC_PATH_PATTERNS`: does the path match one of the case-insensitive
anchored documentation-path regexes? -/
def isDocPathPattern (path : String) : Bool :=
  let p := strLower path
  strStarts p "/doc/" || strStarts p "/docs/" ||
    strStarts p "/guide/" ||
    strStarts p "/api/" ||
    strStarts p "/reference/" ||
    strStarts p "/learn/" ||
    strStarts p "/tutorial" ||
    strStarts p "/getting-started" ||
    strStarts p "/introduction" ||
    strStarts p "/overview"

/-! ## Navigation extraction (`DocsCrawler.extractNavigation`) -/

/-- Process one anchor of a matched navigation element: filter, normalize
the href to an in-origin path, deduplicate against the seen-path set, apply
the doc-shape/depth heuristic, and append the section. -/
def processNavLink (net : CrawlNet) (baseUrl : String)
    (st : List DocSection × List String) (l : NavLink) : List DocSection × List String :=
  let (sections, seen) := st
  let title := jsTrim l.text
  if l.href == "" || title == "" || title.length > 100 then (sections, seen)
  else if (strStarts l.href "http" && !strStarts l.href (net.originOf baseUrl)) ||
      strStarts l.href "#" || strStarts l.href "mailto:" || strStarts l.href "javascript:" then
    (sections, seen)
  else
    let path0 := if strStarts l.href "/" then l.href else "/" ++ l.href
    let path := takeBeforeChar (takeBeforeChar path0 '#') '?'
    if seen.contains path then (sections, seen)
    else
      let seen := path :: seen
      let isDocPath := isDocPathPattern path
      if !isDocPath && !strContainsSub path "doc" && !strContainsSub path "guide" &&
          !strContainsSub path "api" &&
          ((strSplitOn path '/').filter (fun s => !(s == ""))).length < 2 then
        (sections, seen)
      else
        (sections ++ [⟨title, path, net.resolveHref baseUrl path⟩], seen)

/-- Process every anchor of one matched selector, threading the seen-path
set (which is shared across selectors in the source). -/
def processNavLinks (net : CrawlNet) (baseUrl : String) (links : List NavLink)
    (seen : List String) : List DocSection × List String :=
  links.foldl (processNavLink net baseUrl) ([], seen)

/-- The selector loop: skip selectors matching no element; a matching
selector whose anchors all get filtered out contributes nothing and the
scan continues (its rejected paths stay in the seen set); the first
selector yielding sections stops the scan. -/
def navGo (net : CrawlNet) (page : Page) (baseUrl : String) :
    List String → List String → List DocSection
  | [], _ => []
  | sel :: rest, seen =>
    match page.navQuery sel with
    | none => navGo net page baseUrl rest seen
    | some links =>
      let (secs, seen') := processNavLinks net baseUrl links seen
      if secs.isEmpty then navGo net page baseUrl rest seen' else secs

/-- Function `extractNavigation`. -/
def extractNavigation (net : CrawlNet) (page : Page) (baseUrl : String) : List DocSection :=
  navGo net page baseUrl NAV_SELECTORS []

/-! ## Sitemap extraction (`DocsCrawler.trySitemap`) -/

/-- Turn one `url loc` entry into a section when it is documentation-shaped:
synthesize the title from the last path segment (hyphens to spaces, words
capitalized; `Unknown` when the path has no segments). -/
def sitemapEntry (net : CrawlNet) (loc : String) : Option DocSection :=
  let url := jsTrim loc
  if url == "" then none
  else
    let path := net.pathnameOf url
    let isDocPath := isDocPathPattern path
    if isDocPath || strContainsSub url "/docs/" || strContainsSub url "/guide/" then
      let pathParts := (strSplitOn path '/').filter (fun s => !(s == ""))
      let t :=
        match pathParts.getLast? with
        | some lastPart => capitalizeWords (strReplaceAll lastPart '-' ' ')
        | none => ""
      some ⟨if t == "" then "Unknown" else t, path, url⟩
    else none

/-- The sitemap-location loop: try each conventional location, accumulate
the qualifying sections of the first location that parses and yields
something. -/
def sitemapGo (net : CrawlNet) : List String → List DocSection → List DocSection
  | [], acc => acc
  | u :: rest, acc =>
    match net.sitemapFetch u with
    | none => sitemapGo net rest acc
    | some locs =>
      let acc' := acc ++ locs.filterMap (sitemapEntry net)
      if acc'.isEmpty then sitemapGo net rest acc' else acc'

/-- Function `trySitemap`. -/
def trySitemap (net : CrawlNet) (baseUrl : String) : List DocSection :=
  let origin := net.originOf baseUrl
  sitemapGo net
    [origin ++ "/sitemap.xml", origin ++ "/sitemap_index.xml", origin ++ "/docs/sitemap.xml"]
    []

/-! ## Common-path probing (`DocsCrawler.probeCommonPaths`) -/

def commonPaths : List String :=
  ["/docs", "/docs/", "/documentation", "/guide", "/guide/", "/api", "/api/",
   "/reference", "/getting-started", "/introduction", "/overview", "/quickstart"]

/-- Probe each conventional entry path against the origin; all probed paths
start with `/`, so `new URL(path, base.origin).href` is origin ++ path. -/
def probeCommonPaths (net : CrawlNet) (baseUrl : String) : List DocSection :=
  let origin := net.originOf baseUrl
  commonPaths.filterMap (fun path =>
    let url := origin ++ path
    if net.headOk url then
      let t :=
        match ((strSplitOn path '/').filter (fun s => !(s == ""))).head? with
        | some seg => capitalizeWords (strReplaceAll seg '-' ' ')
        | none => ""
      some ⟨if t == "" then "Documentation" else t, path, url⟩
    else none)

/-! ## Documentation heuristics (`DocsCrawler.looksLikeDocumentation`) -/

def looksLikeDocumentation (page : Page) (url : String) : Bool :=
  let urlLower := strLower url
  strContainsSub urlLower "/docs" ||
    strContainsSub urlLower "/documentation" ||
    strContainsSub urlLower "/guide" ||
    strContainsSub urlLower "/api" ||
    strContainsSub urlLower "/reference" ||
    strContainsSub urlLower "docs." ||
    strContainsSub urlLower "documentation." ||
    page.hasCodeBlocks || page.hasNavContainer ||
    page.headingTexts.any (fun h =>
      let text := strLower h
      strContainsSub text "api" ||
        strContainsSub text "usage" ||
        strContainsSub text "installation" ||
        strContainsSub text "getting started" ||
        strContainsSub text "props" ||
        strContainsSub text "methods" ||
        strContainsSub text "options")

/-! ## `crawl` -/

/-- Function `DocsCrawler.crawl`.  A failed initial fetch (network error, timeout, or
non-2xx status, i.e. `fetchPage = none`) leaves every field of the result at
its initial value. -/
def crawl (net : CrawlNet) (url : String) : CrawlResult :=
  let result : CrawlResult :=
    { baseUrl := url, isValidDocs := false, sections := [],
      sitemapFound := false, navigationFound := false }
  match net.fetchPage url with
  | none => result
  | some page =>
    let title :=
      if jsTrim page.titleText == "" then jsTrim page.h1Text else jsTrim page.titleText
    let isValidDocs := looksLikeDocumentation page url
    let navSections := extractNavigation net page url
    let sections1 := navSections
    let navigationFound := !navSections.isEmpty
    let sitemapSections := trySitemap net url
    let (sections2, sitemapFound) :=
      if !sitemapSections.isEmpty then
        let existingPaths := sections1.map (·.path)
        (sections1 ++ sitemapSections.filter (fun s => !existingPaths.contains s.path), true)
      else (sections1, false)
    let sections3 := if sections2.isEmpty then probeCommonPaths net url else sections2
    { baseUrl := url, isValidDocs := isValidDocs, title := some title,
      sections := sections3, sitemapFound := sitemapFound, navigationFound := navigationFound }

/-! ## Helper lemmas -/

/-- Every URL in the override table is non-empty (so a table hit is always
JS-truthy). -/
theorem overrideValuesNonempty :
    KNOWN_DOCS_OVERRIDES.all (fun p => !(p.2 == "")) = true := by decide

@[simp] theorem optTruthy_none : optTruthy none = false := rfl

@[simp] theorem optTruthy_some (s : String) : optTruthy (some s) = !(s == "") := rfl

theorem knownOverride_ne_empty {n u : String} (h : knownOverrideFor n = some u) :
    (u == "") = false := by
  unfold knownOverrideFor at h
  rcases Option.map_eq_some'.mp h with ⟨p, hf, hu⟩
  have hmem := List.mem_of_find?_eq_some hf
  have hall := List.all_eq_true.mp overrideValuesNonempty _ hmem
  subst hu
  simpa using hall

theorem knownOverride_truthy {n u : String} (h : knownOverrideFor n = some u) :
    optTruthy (knownOverrideFor n) = true := by
  rw [h]
  simp [knownOverride_ne_empty h]

theorem optTruthy_isSome {o : Option String} (h : optTruthy o = true) :
    o.isSome = true := by
  cases o with
  | none => simp at h
  | some s => rfl

/-- After the Priority-6 tier, `docsUrl` is always set. -/
theorem npmTier_docsUrl_isSome (packageName : String) (s : UrlState) :
    ((npmTier packageName) s).docsUrl.isSome = true := by
  unfold npmTier
  by_cases h : optTruthy s.docsUrl = true
  · simp [h, optTruthy_isSome h]
  · simp [Bool.not_eq_true] at h
    simp [h]

/-- The all-failing network oracle for the scanner. -/
def net0 : NetOracle :=
  { urlExists := fun _ => false, parseHost := fun _ => none, analyzeHomepage := fun _ => none }

/-! ## C1 — `docsUrl` non-null under every network condition -/

/-- C1 counterexample: when the registry metadata fetch fails
(`metadata = none`) and the package is not in the override table,
`discoverPackage` returns `docsUrl = null` — the claimed registry-page
fallback does not run on that path. -/
theorem discoverPackage_docsUrl_null_cex :
    (discoverPackage net0 "left-pad" none).docsUrl = none := by decide

/-- C1 (amended): `discoverPackage(name).docsUrl` is non-null exactly when
the registry metadata fetch succeeded, or the package has a (truthy)
override-table entry; the metadata-failure path returns early and skips the
registry-page fallback. -/
theorem discoverPackage_docsUrl_isSome_iff (net : NetOracle) (packageName : String)
    (metadata : Option NpmPackageMetadata) :
    (discoverPackage net packageName metadata).docsUrl.isSome =
      (metadata.isSome || optTruthy (knownOverrideFor packageName)) := by
  cases metadata with
  | none =>
    by_cases h : optTruthy (knownOverrideFor packageName) = true
    · have := optTruthy_isSome h
      simp [discoverPackage, h, this]
    · simp only [Bool.not_eq_true] at h
      simp [discoverPackage, h]
  | some md =>
    by_cases h : optTruthy (knownOverrideFor packageName) = true
    · have := optTruthy_isSome h
      simp [discoverPackage, h, this]
    · simp only [Bool.not_eq_true] at h
      simp [discoverPackage, h, npmTier_docsUrl_isSome]

/-! ## C2 — the metadata-failure outcome -/

/-- C2 counterexample: with a failed metadata fetch for a non-override
package, the confidence is indeed `low` but `docsUrl` is null, not the npm
page. -/
theorem discoverPackage_metadata_fail_cex :
    (discoverPackage net0 "some-nonexistent-package-12345" none).confidence = .low ∧
    (discoverPackage net0 "some-nonexistent-package-12345" none).docsUrl = none ∧
    (discoverPackage net0 "some-nonexistent-package-12345" none).docsUrl ≠
      some (discoverPackage net0 "some-nonexistent-package-12345" none).npmUrl := by
  refine ⟨by decide, by decide, by decide⟩

/-- C2 (amended): when the registry metadata fetch fails for a package that
is not in the override table, `discoverPackage` still returns a record — with
`confidence = low` and the registry page in `npmUrl`, but with `docsUrl`
left null rather than set to `npmUrl`. -/
theorem discoverPackage_metadata_fail (net : NetOracle) (packageName : String)
    (h : optTruthy (knownOverrideFor packageName) = false) :
    discoverPackage net packageName none =
      { name := packageName, version := "unknown", description := none, docsUrl := none,
        githubUrl := none, npmUrl := npmUrlOf packageName, confidence := .low,
        keywords := none } := by
  simp [discoverPackage, h]

theorem discoverPackage_metadata_fail_witness :
    optTruthy (knownOverrideFor "some-nonexistent-package-12345") = false ∧
    discoverPackage net0 "some-nonexistent-package-12345" none =
      { name := "some-nonexistent-package-12345", version := "unknown", description := none,
        docsUrl := none, githubUrl := none,
        npmUrl := npmUrlOf "some-nonexistent-package-12345", confidence := .low,
        keywords := none } :=
  ⟨by decide, discoverPackage_metadata_fail net0 "some-nonexistent-package-12345" (by decide)⟩

/-! ## C4 — override-table hits -/

/-- C4: an override-table hit yields exactly the table URL at confidence
`high`, and a successful metadata fetch still populates the version,
description, keywords and GitHub fields. -/
theorem discoverPackage_override (net : NetOracle) (packageName : String)
    (md : NpmPackageMetadata) (u : String) (h : knownOverrideFor packageName = some u) :
    (discoverPackage net packageName (some md)).docsUrl = some u ∧
    (discoverPackage net packageName (some md)).confidence = .high ∧
    (discoverPackage net packageName (some md)).version = md.version ∧
    (discoverPackage net packageName (some md)).description = md.description ∧
    (discoverPackage net packageName (some md)).keywords = md.keywords ∧
    (discoverPackage net packageName (some md)).githubUrl = extractGitHubUrl md.repository := by
  have htr := knownOverride_truthy h
  have hne := knownOverride_ne_empty h
  refine ⟨?_, ?_, ?_, ?_, ?_, ?_⟩ <;> simp [discoverPackage, htr, h, hne]

def mdLodash : NpmPackageMetadata :=
  { name := "lodash", version := "4.17.21",
    description := some "Lodash modular utilities.",
    homepage := some "https://lodash.com/",
    repository := some (.obj (some "git") (some "git+https://github.com/lodash/lodash.git")),
    keywords := some ["modules", "stdlib", "util"] }

theorem discoverPackage_override_witness :
    knownOverrideFor "lodash" = some "https://lodash.com/docs" ∧
    (discoverPackage net0 "lodash" (some mdLodash)).docsUrl = some "https://lodash.com/docs" ∧
    (discoverPackage net0 "lodash" (some mdLodash)).confidence = .high ∧
    (discoverPackage net0 "lodash" (some mdLodash)).version = mdLodash.version ∧
    (discoverPackage net0 "lodash" (some mdLodash)).description = mdLodash.description ∧
    (discoverPackage net0 "lodash" (some mdLodash)).keywords = mdLodash.keywords ∧
    (discoverPackage net0 "lodash" (some mdLodash)).githubUrl =
      extractGitHubUrl mdLodash.repository :=
  ⟨by decide,
   (discoverPackage_override net0 "lodash" mdLodash "https://lodash.com/docs" (by decide)).1,
   (discoverPackage_override net0 "lodash" mdLodash "https://lodash.com/docs" (by decide)).2.1,
   (discoverPackage_override net0 "lodash" mdLodash "https://lodash.com/docs" (by decide)).2.2.1,
   (discoverPackage_override net0 "lodash" mdLodash "https://lodash.com/docs" (by decide)).2.2.2.1,
   (discoverPackage_override net0 "lodash" mdLodash "https://lodash.com/docs" (by decide)).2.2.2.2.1,
   (discoverPackage_override net0 "lodash" mdLodash "https://lodash.com/docs" (by decide)).2.2.2.2.2⟩

/-! ## C10 — override hit with failed metadata fetch -/

/-- C10: an override-table package whose metadata fetch fails still gets the
override URL at confidence `high`, with the sentinel version `unknown`, no
GitHub URL, and absent description and keywords. -/
theorem discoverPackage_override_no_metadata (net : NetOracle) (packageName : String)
    (u : String) (h : knownOverrideFor packageName = some u) :
    discoverPackage net packageName none =
      { name := packageName, version := "unknown", description := none, docsUrl := some u,
        githubUrl := none, npmUrl := npmUrlOf packageName, confidence := .high,
        keywords := none } := by
  have htr := knownOverride_truthy h
  have hne := knownOverride_ne_empty h
  simp [discoverPackage, htr, h, hne]

theorem discoverPackage_override_no_metadata_witness :
    knownOverrideFor "axios" = some "https://axios-http.com/docs/intro" ∧
    discoverPackage net0 "axios" none =
      { name := "axios", version := "unknown", description := none,
        docsUrl := some "https://axios-http.com/docs/intro", githubUrl := none,
        npmUrl := npmUrlOf "axios", confidence := .high, keywords := none } :=
  ⟨by decide,
   discoverPackage_override_no_metadata net0 "axios" "https://axios-http.com/docs/intro"
     (by decide)⟩

/-! ## C3 — first acceptable candidate wins; no downgrade within a pass -/

/-- Every tier of the cascade leaves the state untouched once `docsUrl` is
(truthily) set. -/
theorem tier_stable_of_mem (net : NetOracle) (packageName : String)
    (md : NpmPackageMetadata) {t : UrlState → UrlState}
    (ht : t ∈ urlTiers net packageName md) (s : UrlState)
    (hs : optTruthy s.docsUrl = true) : t s = s := by
  simp only [urlTiers, List.mem_cons, List.not_mem_nil, or_false] at ht
  rcases ht with h | h | h | h | h | h <;> subst h <;>
    simp [homepageTier, orgTier, commonTier, analyzeTier, githubTier, npmTier, hs]

theorem runTiers_append (l₁ l₂ : List (UrlState → UrlState)) (s : UrlState) :
    runTiers (l₁ ++ l₂) s = runTiers l₂ (runTiers l₁ s) := by
  simp [runTiers, List.foldl_append]

theorem runTiers_stable (l : List (UrlState → UrlState))
    (h : ∀ t ∈ l, ∀ s, optTruthy s.docsUrl = true → t s = s)
    (s : UrlState) (hs : optTruthy s.docsUrl = true) : runTiers l s = s := by
  induction l with
  | nil => rfl
  | cons t rest ih =>
    have h1 : t s = s := h t (List.mem_cons_self t rest) s hs
    have hstep : runTiers (t :: rest) s = runTiers rest (t s) := rfl
    rw [hstep, h1]
    exact ih fun t' ht' s' hs' => h t' (List.mem_cons_of_mem t ht') s' hs'

/-- C3: within one discovery pass, once a prefix of the URL-determination
cascade has (truthily) set `docsUrl`, running the remaining tiers changes
neither `docsUrl` nor `confidence` — the first acceptable candidate wins and
its confidence is never downgraded; and for a non-override package the
`docsUrl`/`confidence` that `discoverPackage` returns are exactly those of
the full cascade run. -/
theorem discovery_first_acceptable_wins (net : NetOracle) (packageName : String)
    (md : NpmPackageMetadata) (l₁ l₂ : List (UrlState → UrlState)) (s₀ : UrlState)
    (hsplit : urlTiers net packageName md = l₁ ++ l₂)
    (hset : optTruthy (runTiers l₁ s₀).docsUrl = true) :
    runTiers (urlTiers net packageName md) s₀ = runTiers l₁ s₀ ∧
    (optTruthy (knownOverrideFor packageName) = false →
      (discoverPackage net packageName (some md)).docsUrl =
        (runTiers (urlTiers net packageName md) ⟨none, .low⟩).docsUrl ∧
      (discoverPackage net packageName (some md)).confidence =
        (runTiers (urlTiers net packageName md) ⟨none, .low⟩).confidence) := by
  constructor
  · rw [hsplit, runTiers_append]
    refine runTiers_stable l₂ ?_ _ hset
    intro t ht s hs
    refine tier_stable_of_mem net packageName md ?_ s hs
    rw [hsplit]
    exact List.mem_append.mpr (Or.inr ht)
  · intro hov
    constructor <;> simp [discoverPackage, hov, runTiers, urlTiers]

def mdHomepageDev : NpmPackageMetadata :=
  { name := "foo-pkg", version := "1.0.0", homepage := some "https://example.dev/docs" }

theorem discovery_first_acceptable_wins_witness :
    urlTiers net0 "foo-pkg" mdHomepageDev =
      [homepageTier mdHomepageDev] ++
        [orgTier net0 "foo-pkg",
         commonTier net0 "foo-pkg" mdHomepageDev (extractGitHubUrl mdHomepageDev.repository),
         analyzeTier net0 mdHomepageDev,
         githubTier (extractGitHubUrl mdHomepageDev.repository),
         npmTier "foo-pkg"] ∧
    optTruthy (runTiers [homepageTier mdHomepageDev] ⟨none, .low⟩).docsUrl = true ∧
    runTiers (urlTiers net0 "foo-pkg" mdHomepageDev) ⟨none, .low⟩ =
      runTiers [homepageTier mdHomepageDev] ⟨none, .low⟩ :=
  ⟨rfl, by decide,
   (discovery_first_acceptable_wins net0 "foo-pkg" mdHomepageDev
      [homepageTier mdHomepageDev]
      [orgTier net0 "foo-pkg",
       commonTier net0 "foo-pkg" mdHomepageDev (extractGitHubUrl mdHomepageDev.repository),
       analyzeTier net0 mdHomepageDev,
       githubTier (extractGitHubUrl mdHomepageDev.repository),
       npmTier "foo-pkg"]
      ⟨none, .low⟩ rfl (by decide)).1⟩

/-! ## C5 — the homepage-acceptance tier -/

/-- C5: with `docsUrl` still unset and a (truthy) homepage in the metadata,
the homepage tier accepts the homepage as `docsUrl` exactly when it is not a
disqualified repository link (`github.com` — unless the address is GitHub
Pages `*.github.io` — `gitlab.com`, or `npmjs.com`); on acceptance the
confidence is `high` iff the lowercased homepage contains `docs`,
`documentation`, `guide`, `.dev`, `.io` or is a GitHub Pages host, and
`medium` otherwise; a disqualified homepage leaves the state untouched. -/
theorem homepageTier_acceptance (md : NpmPackageMetadata) (s : UrlState) (hp : String)
    (hhp : md.homepage = some hp) (hne : hp ≠ "") (hunset : s.docsUrl = none) :
    ((homepageTier md s).docsUrl = some hp ↔ isRepositoryLinkHomepage hp = false) ∧
    (isRepositoryLinkHomepage hp = false →
      homepageTier md s =
        ⟨some hp, if hasDocKeywordsHomepage hp then .high else .medium⟩) ∧
    (isRepositoryLinkHomepage hp = true → homepageTier md s = s) := by
  have hne' : (hp == "") = false := by simpa using hne
  refine ⟨?_, ?_, ?_⟩
  · constructor
    · intro hacc
      by_contra hrep
      simp only [Bool.not_eq_false] at hrep
      simp [homepageTier, hhp, hne', hrep, hunset] at hacc
    · intro hrep
      simp [homepageTier, hhp, hne', hrep, hunset]
  · intro hrep
    simp [homepageTier, hhp, hne', hrep, hunset]
  · intro hrep
    simp [homepageTier, hhp, hne', hrep, hunset]

def mdHomepagePlain : NpmPackageMetadata :=
  { name := "plainsite", version := "2.0.0", homepage := some "https://example.com" }

theorem homepageTier_acceptance_witness :
    mdHomepagePlain.homepage = some "https://example.com" ∧
    "https://example.com" ≠ "" ∧
    (UrlState.mk none Confidence.low).docsUrl = none ∧
    ((homepageTier mdHomepagePlain ⟨none, .low⟩).docsUrl = some "https://example.com" ↔
      isRepositoryLinkHomepage "https://example.com" = false) ∧
    (isRepositoryLinkHomepage "https://example.com" = false →
      homepageTier mdHomepagePlain ⟨none, .low⟩ =
        ⟨some "https://example.com",
         if hasDocKeywordsHomepage "https://example.com" then .high else .medium⟩) :=
  ⟨rfl, by decide, rfl,
   (homepageTier_acceptance mdHomepagePlain ⟨none, .low⟩ "https://example.com" rfl
      (by decide) rfl).1,
   (homepageTier_acceptance mdHomepagePlain ⟨none, .low⟩ "https://example.com" rfl
      (by decide) rfl).2.1⟩

/-! ## C9 — the generic-pattern candidate list -/

/-- C9: when the homepage is present and parses, and a GitHub URL is known,
the generic-pattern tier builds exactly the six candidates in source order
with the stated confidences — docs-subdomain (`high`), `/docs` (`high`),
`/documentation` (`medium`), `/guide` (`medium`), GitHub Pages (`medium`),
ReadTheDocs on the sanitized name (`medium`); when the homepage does not
parse, the four homepage-derived candidates are absent; and probing returns
the first candidate (in list order) whose URL exists, with its listed
confidence. -/
theorem tryCommonDocPatterns_spec (urlExists : String → Bool)
    (parseHost : String → Option String) (packageName hp host gh : String)
    (hne : hp ≠ "") (hhost : parseHost hp = some host) (hgh : gh ≠ "") :
    tryCommonDocPatternsCandidates parseHost packageName (some hp) (some gh) =
      [(DOCS_URL_PATTERNS.docsSubdomain (stripWww host), .high),
       (DOCS_URL_PATTERNS.docPath (stripTrailingSlash hp), .high),
       (DOCS_URL_PATTERNS.documentationPath (stripTrailingSlash hp), .medium),
       (DOCS_URL_PATTERNS.guidePath (stripTrailingSlash hp), .medium),
       (DOCS_URL_PATTERNS.githubPages packageName gh, .medium),
       (DOCS_URL_PATTERNS.readthedocs (rtdCleanName packageName), .medium)] ∧
    (∀ hp2 : String, parseHost hp2 = none →
      tryCommonDocPatternsCandidates parseHost packageName (some hp2) (some gh) =
        [(DOCS_URL_PATTERNS.githubPages packageName gh, .medium),
         (DOCS_URL_PATTERNS.readthedocs (rtdCleanName packageName), .medium)]) ∧
    (∀ l₁ l₂ (c : String × Confidence),
      tryCommonDocPatternsCandidates parseHost packageName (some hp) (some gh) =
        l₁ ++ c :: l₂ →
      (∀ c' ∈ l₁, urlExists c'.1 = false) → urlExists c.1 = true →
      tryCommonDocPatterns urlExists parseHost packageName (some hp) (some gh) = some c) := by
  have hne' : (hp == "") = false := by simpa using hne
  have hgh' : (gh == "") = false := by simpa using hgh
  refine ⟨?_, ?_, ?_⟩
  · simp [tryCommonDocPatternsCandidates, hne', hhost, hgh']
  · intro hp2 hnone
    by_cases h2 : (hp2 == "") = true
    · simp [tryCommonDocPatternsCandidates, h2, hgh']
    · simp only [Bool.not_eq_true] at h2
      simp [tryCommonDocPatternsCandidates, h2, hnone, hgh']
  · intro l₁ l₂ c hdecomp hmiss hhit
    unfold tryCommonDocPatterns
    rw [hdecomp]
    clear hdecomp
    induction l₁ with
    | nil => simp [firstExisting, hhit]
    | cons c' rest ih =>
      have hm : urlExists c'.1 = false := hmiss c' (List.mem_cons_self c' rest)
      simp only [List.cons_append, firstExisting, hm]
      simp only [Bool.false_eq_true, if_false]
      exact ih fun x hx => hmiss x (List.mem_cons_of_mem c' hx)

theorem tryCommonDocPatterns_spec_witness :
    ("https://www.example.com/" ≠ "" ∧
      (fun s => if s == "https://www.example.com/" then some "www.example.com"
                else none) "https://www.example.com/" = some "www.example.com" ∧
      "https://github.com/acme/widget" ≠ "") ∧
    tryCommonDocPatternsCandidates
        (fun s => if s == "https://www.example.com/" then some "www.example.com" else none)
        "@acme/widget" (some "https://www.example.com/")
        (some "https://github.com/acme/widget") =
      [(DOCS_URL_PATTERNS.docsSubdomain (stripWww "www.example.com"), .high),
       (DOCS_URL_PATTERNS.docPath (stripTrailingSlash "https://www.example.com/"), .high),
       (DOCS_URL_PATTERNS.documentationPath (stripTrailingSlash "https://www.example.com/"),
         .medium),
       (DOCS_URL_PATTERNS.guidePath (stripTrailingSlash "https://www.example.com/"), .medium),
       (DOCS_URL_PATTERNS.githubPages "@acme/widget" "https://github.com/acme/widget", .medium),
       (DOCS_URL_PATTERNS.readthedocs (rtdCleanName "@acme/widget"), .medium)] :=
  ⟨⟨by decide, by decide, by decide⟩,
   (tryCommonDocPatterns_spec (fun _ => false)
      (fun s => if s == "https://www.example.com/" then some "www.example.com" else none)
      "@acme/widget" "https://www.example.com/" "www.example.com"
      "https://github.com/acme/widget" (by decide) (by decide) (by decide)).1⟩

/-! ## C8 — a failed initial fetch -/

/-- C8: when the initial page fetch fails (network error, timeout, or
non-2xx status, i.e. `fetchPage = none`), `crawl` returns normally with the
input URL as `baseUrl`, `isValidDocs = false`, no sections, and both
strategy flags `false`. -/
theorem crawl_fetch_fail (net : CrawlNet) (url : String) (h : net.fetchPage url = none) :
    crawl net url =
      { baseUrl := url, isValidDocs := false, title := none, sections := [],
        sitemapFound := false, navigationFound := false } := by
  simp [crawl, h]

/-- A crawler oracle on which every network operation fails. -/
def netFail : CrawlNet :=
  { fetchPage := fun _ => none, sitemapFetch := fun _ => none,
    pathnameOf := fun _ => "/", originOf := fun _ => "",
    resolveHref := fun _ p => p, headOk := fun _ => false }

theorem crawl_fetch_fail_witness :
    netFail.fetchPage "https://unreachable.example" = none ∧
    crawl netFail "https://unreachable.example" =
      { baseUrl := "https://unreachable.example", isValidDocs := false, title := none,
        sections := [], sitemapFound := false, navigationFound := false } :=
  ⟨rfl, crawl_fetch_fail netFail "https://unreachable.example" rfl⟩

/-! ## C6 — which selector wins during navigation extraction -/

/-- The first selector that matches any element. -/
def firstMatchLinks (page : Page) : List String → Option (List NavLink)
  | [] => none
  | sel :: rest =>
    match page.navQuery sel with
    | some links => some links
    | none => firstMatchLinks page rest

/-- Modelled from the spec: "take the first selector that matches any
element, collect its internal links" — the scan would stop at the first
selector matching an element, even when all of that element's links get
filtered out. -/
def extractNavigationSpecFirstMatch (net : CrawlNet) (page : Page) (baseUrl : String) :
    List DocSection :=
  match firstMatchLinks page NAV_SELECTORS with
  | some links => (processNavLinks net baseUrl links []).1
  | none => []

/-- A crawler oracle over the fixed origin `https://x.com`. -/
def netX : CrawlNet :=
  { fetchPage := fun _ => none, sitemapFetch := fun _ => none,
    pathnameOf := fun _ => "/", originOf := fun _ => "https://x.com",
    resolveHref := fun _ p => "https://x.com" ++ p, headOk := fun _ => false }

/-- A page whose first matching selector (`.sidebar nav`) holds only an
anchor link, while the second (`.sidebar-nav`) holds a documentation link. -/
def pageTwoSidebars : Page :=
  { titleText := "T", h1Text := "",
    navQuery := fun sel =>
      if sel == ".sidebar nav" then some [⟨"#top", "Top"⟩]
      else if sel == ".sidebar-nav" then some [⟨"/docs/intro", "Intro"⟩]
      else none,
    hasCodeBlocks := false, hasNavContainer := true, headingTexts := [] }

/-- C6 counterexample: the source code does consult selectors after the
first one that matches an element — a matching selector whose links are all
filtered out is passed over, and a later selector supplies the sections. -/
theorem extractNavigation_first_match_cex :
    extractNavigation netX pageTwoSidebars "https://x.com" =
      [⟨"Intro", "/docs/intro", "https://x.com/docs/intro"⟩] ∧
    extractNavigationSpecFirstMatch netX pageTwoSidebars "https://x.com" = [] ∧
    extractNavigation netX pageTwoSidebars "https://x.com" ≠
      extractNavigationSpecFirstMatch netX pageTwoSidebars "https://x.com" :=
  ⟨by decide, by decide, by decide⟩

/-- Appending further selectors cannot change the extraction once a prefix
of the selector list already yields sections. -/
theorem navGo_append_of_ne_nil (net : CrawlNet) (page : Page) (baseUrl : String) :
    ∀ (l₁ l₂ seen : List String),
      navGo net page baseUrl l₁ seen ≠ [] →
      navGo net page baseUrl (l₁ ++ l₂) seen = navGo net page baseUrl l₁ seen := by
  intro l₁
  induction l₁ with
  | nil => intro l₂ seen h; exact absurd rfl h
  | cons sel rest ih =>
    intro l₂ seen h
    rw [List.cons_append]
    unfold navGo at h ⊢
    cases hq : page.navQuery sel with
    | none =>
      rw [hq] at h
      exact ih l₂ seen h
    | some links =>
      rw [hq] at h
      rcases hps : processNavLinks net baseUrl links seen with ⟨secs, seen'⟩
      simp only [hps] at h ⊢
      cases hsecs : secs.isEmpty with
      | true =>
        simp only [hsecs, if_true] at h ⊢
        exact ih l₂ seen' h
      | false =>
        simp only [hsecs, Bool.false_eq_true, if_false]

/-- C6 (amended): navigation extraction takes the first selector that
matches an element AND yields at least one qualifying link after filtering;
a matching selector whose links are all filtered contributes nothing and
the scan continues (though its rejected paths stay deduplicated); selectors
after the first yielding one are never consulted. -/
theorem extractNavigation_first_yielding (net : CrawlNet) (page : Page) (baseUrl : String)
    (l₁ l₂ : List String) (hsplit : NAV_SELECTORS = l₁ ++ l₂)
    (hne : navGo net page baseUrl l₁ [] ≠ []) :
    extractNavigation net page baseUrl = navGo net page baseUrl l₁ [] := by
  unfold extractNavigation
  rw [hsplit]
  exact navGo_append_of_ne_nil net page baseUrl l₁ l₂ [] hne

/-- A page where already the first selector yields a section. -/
def pageFirstSidebar : Page :=
  { titleText := "T", h1Text := "",
    navQuery := fun sel =>
      if sel == ".sidebar nav" then some [⟨"/docs/a", "A"⟩] else none,
    hasCodeBlocks := false, hasNavContainer := true, headingTexts := [] }

theorem extractNavigation_first_yielding_witness :
    NAV_SELECTORS =
      [".sidebar nav"] ++
        [".sidebar-nav", ".docs-sidebar", ".documentation-sidebar",
         "[class*=\"sidebar\"] nav", "[class*=\"sidebar\"] ul", "aside nav", "aside ul",
         ".docs-nav", ".doc-nav", ".toc", ".table-of-contents", "[class*=\"toc\"]",
         ".VPSidebar", ".sidebar-links", ".menu-list", "[class*=\"DocsSidebar\"]",
         ".nextra-sidebar", ".gitbook-root nav"] ∧
    navGo netX pageFirstSidebar "https://x.com" [".sidebar nav"] [] ≠ [] ∧
    extractNavigation netX pageFirstSidebar "https://x.com" =
      navGo netX pageFirstSidebar "https://x.com" [".sidebar nav"] [] :=
  ⟨rfl, by decide,
   extractNavigation_first_yielding netX pageFirstSidebar "https://x.com" [".sidebar nav"]
     [".sidebar-nav", ".docs-sidebar", ".documentation-sidebar",
      "[class*=\"sidebar\"] nav", "[class*=\"sidebar\"] ul", "aside nav", "aside ul",
      ".docs-nav", ".doc-nav", ".toc", ".table-of-contents", "[class*=\"toc\"]",
      ".VPSidebar", ".sidebar-links", ".menu-list", "[class*=\"DocsSidebar\"]",
      ".nextra-sidebar", ".gitbook-root nav"] rfl (by decide)⟩

/-! ## C7 — merging navigation- and sitemap-derived sections -/

/-- A page matching no navigation selector. -/
def pageNoNav : Page :=
  { titleText := "", h1Text := "", navQuery := fun _ => none,
    hasCodeBlocks := false, hasNavContainer := false, headingTexts := [] }

/-- A crawl oracle whose sitemap lists two URLs with the same pathname. -/
def netDupSitemap : CrawlNet :=
  { fetchPage := fun _ => some pageNoNav,
    sitemapFetch := fun u =>
      if u == "https://x.com/sitemap.xml" then
        some ["https://x.com/docs/a", "https://x.com/docs/a?v=2"]
      else none,
    pathnameOf := fun u =>
      if u == "https://x.com/docs/a" then "/docs/a"
      else if u == "https://x.com/docs/a?v=2" then "/docs/a"
      else "/",
    originOf := fun _ => "https://x.com",
    resolveHref := fun _ p => "https://x.com" ++ p,
    headOk := fun _ => false }

/-- C7 counterexample: the merged `sections` list is NOT deduplicated by
normalized path in general — duplicate paths among the sitemap-derived
entries survive, because the merge only checks sitemap paths against the
navigation-derived set. -/
theorem crawl_sections_dup_cex :
    (crawl netDupSitemap "https://x.com").sections.map DocSection.path =
      ["/docs/a", "/docs/a"] ∧
    ¬ ((crawl netDupSitemap "https://x.com").sections.map DocSection.path).Nodup :=
  ⟨by decide, by decide⟩

/-- C7 (amended): when both strategies yield entries, `crawl`'s sections are
the navigation-derived entries followed by exactly those sitemap-derived
entries whose path does not occur among the navigation paths; the result has
pairwise-distinct paths whenever the navigation paths and the sitemap paths
are each internally duplicate-free (navigation entries are deduplicated at
extraction; sitemap entries are not). -/
theorem crawl_merge_sections (net : CrawlNet) (url : String) (page : Page)
    (hf : net.fetchPage url = some page)
    (hnav : extractNavigation net page url ≠ [])
    (hsm : trySitemap net url ≠ []) :
    (crawl net url).sections =
      extractNavigation net page url ++
        (trySitemap net url).filter
          (fun s =>
            !((extractNavigation net page url).map DocSection.path).contains s.path) ∧
    (((extractNavigation net page url).map DocSection.path).Nodup →
      ((trySitemap net url).map DocSection.path).Nodup →
      ((crawl net url).sections.map DocSection.path).Nodup) := by
  have hnavE : (extractNavigation net page url).isEmpty = false := by
    rw [Bool.eq_false_iff]
    intro hx
    exact hnav (List.isEmpty_iff.mp hx)
  have hsmE : (trySitemap net url).isEmpty = false := by
    rw [Bool.eq_false_iff]
    intro hx
    exact hsm (List.isEmpty_iff.mp hx)
  have hsec : (crawl net url).sections =
      extractNavigation net page url ++
        (trySitemap net url).filter
          (fun s =>
            !((extractNavigation net page url).map DocSection.path).contains s.path) := by
    simp only [crawl, hf, hsmE, Bool.not_false, if_true]
    simp [List.isEmpty_iff, List.append_eq_nil, hnav]
  refine ⟨hsec, ?_⟩
  intro hnd hsd
  rw [hsec, List.map_append, List.nodup_append]
  refine ⟨hnd, ?_, ?_⟩
  · exact List.Nodup.sublist ((List.filter_sublist _).map DocSection.path) hsd
  · intro a ha hb
    rcases List.mem_map.mp hb with ⟨s, hs, hpath⟩
    rcases List.mem_filter.mp hs with ⟨_, hps⟩
    rw [Bool.not_eq_true'] at hps
    have hmem : s.path ∈ (extractNavigation net page url).map DocSection.path := by
      rw [hpath]; exact ha
    have := List.elem_eq_true_of_mem hmem
    rw [List.contains] at hps
    rw [this] at hps
    exact Bool.true_eq_false.mp hps

/-- A page with a sidebar holding two documentation links. -/
def pageTwoLinks : Page :=
  { titleText := "Docs", h1Text := "",
    navQuery := fun sel =>
      if sel == ".sidebar nav" then
        some [⟨"/docs/alpha", "Alpha"⟩, ⟨"/docs/beta", "Beta"⟩]
      else none,
    hasCodeBlocks := true, hasNavContainer := true, headingTexts := [] }

/-- A crawl oracle with both the two-link sidebar page and a three-URL
sitemap, one sitemap URL sharing the path `/docs/beta` with the sidebar. -/
def netNavAndSitemap : CrawlNet :=
  { fetchPage := fun u => if u == "https://x.com/docs" then some pageTwoLinks else none,
    sitemapFetch := fun u =>
      if u == "https://x.com/sitemap.xml" then
        some ["https://x.com/docs/beta", "https://x.com/docs/gamma",
              "https://x.com/docs/delta"]
      else none,
    pathnameOf := fun u =>
      if u == "https://x.com/docs/beta" then "/docs/beta"
      else if u == "https://x.com/docs/gamma" then "/docs/gamma"
      else if u == "https://x.com/docs/delta" then "/docs/delta"
      else "/",
    originOf := fun _ => "https://x.com",
    resolveHref := fun _ p => "https://x.com" ++ p,
    headOk := fun _ => false }

theorem crawl_merge_sections_witness :
    netNavAndSitemap.fetchPage "https://x.com/docs" = some pageTwoLinks ∧
    extractNavigation netNavAndSitemap pageTwoLinks "https://x.com/docs" ≠ [] ∧
    trySitemap netNavAndSitemap "https://x.com/docs" ≠ [] ∧
    (crawl netNavAndSitemap "https://x.com/docs").sections =
      extractNavigation netNavAndSitemap pageTwoLinks "https://x.com/docs" ++
        (trySitemap netNavAndSitemap "https://x.com/docs").filter
          (fun s =>
            !((extractNavigation netNavAndSitemap pageTwoLinks "https://x.com/docs").map
                DocSection.path).contains s.path) ∧
    (crawl netNavAndSitemap "https://x.com/docs").sections.map DocSection.path =
      ["/docs/alpha", "/docs/beta", "/docs/gamma", "/docs/delta"] ∧
    ((crawl netNavAndSitemap "https://x.com/docs").sections.map DocSection.path).Nodup :=
  ⟨rfl, by decide, by decide,
   (crawl_merge_sections netNavAndSitemap "https://x.com/docs" pageTwoLinks rfl
      (by decide) (by decide)).1,
   by decide, by decide⟩

end Nardocs
